import Mathlib

/-!
Shallow embedding of the Miri runtime-support excerpt:
  - `src/shims/panic.rs` (unwind engine: `handle_miri_start_panic`,
    `handle_try`, `handle_stack_pop`, `start_panic`, `assert_panic`),
  - `src/shims/posix/foreign_items.rs` and
    `src/shims/windows/foreign_items.rs` (foreign-symbol dispatchers),
together with theorems settling the frozen claims about them.

Machine integers are modelled as `Nat`/`Int`; scalars and pointers are
opaque `Nat` values; guest places are identified by `Nat` ids and the
interpreter memory is a write log.  Interpreter errors (`InterpResult`)
are explicit: every operation returns a `Res α`, which carries the
machine state both on success and on failure, so "fails before any side
effect" is expressible as "the error carries the unchanged state".
-/

/-- Function-call ABIs, as far as the excerpt distinguishes them
(`Abi::Rust`, `Abi::C { unwind }`, `Abi::System { unwind }`). -/
inductive Abi where
  | rust : Abi
  | c (unwind : Bool) : Abi
  | system (unwind : Bool) : Abi
deriving DecidableEq, Repr

/-- `rustc_target::spec::PanicStrategy`. -/
inductive PanicStrategy where
  | unwind : PanicStrategy
  | abort : PanicStrategy
deriving DecidableEq, Repr

/-- `StackPopUnwind`: where to unwind to when a call unwinds. -/
inductive StackPopUnwind where
  | cleanup (block : Nat) : StackPopUnwind
  | skip : StackPopUnwind
  | notAllowed : StackPopUnwind
deriving DecidableEq, Repr

/-- `StackPopCleanup`: what to do on normal return of a pushed call.
The excerpt only ever uses the `Goto { ret, unwind }` variant. -/
inductive StackPopCleanup where
  | goto (ret : Option Nat) (unwind : StackPopUnwind) : StackPopCleanup
deriving DecidableEq, Repr

/-- `StackPopJump`: what the frame-pop hook tells the interpreter core. -/
inductive StackPopJump where
  | normal : StackPopJump
  | noJump : StackPopJump
deriving DecidableEq, Repr

/-- `CatchUnwindData` (panic.rs lines 25-36): all the relevant data for
when unwinding hits a `try` frame.  `catch_fn` and `data` are scalars,
`dest` is the return place of the original call to `try` (a place id),
`ret` is the return basic block of that call. -/
structure CatchUnwindData where
  catch_fn : Nat
  data : Nat
  dest : Nat
  ret : Nat
deriving DecidableEq, Repr

/-- The Miri-specific extra data of a frame (`FrameData`): a call id for
the aliasing checker, and the optional catch metadata. -/
structure FrameData where
  call_id : Nat
  catch_unwind : Option CatchUnwindData
deriving DecidableEq, Repr

/-- The function being invoked by a `call_function`: either a guest
function resolved from a function pointer, or one of the two panic lang
items the excerpt calls into. -/
inductive Func where
  | ptr (p : Nat) : Func
  | panicItem : Func
  | panicBoundsCheck : Func
deriving DecidableEq, Repr

/-- One guest stack frame, as far as the excerpt observes it. -/
structure Frame where
  func : Func
  args : List Nat
  cleanup : StackPopCleanup
  extra : FrameData
deriving DecidableEq, Repr

/-- Record of one `call_function` invocation (function, evaluated
arguments, and the return/unwind continuation). -/
structure FnCall where
  func : Func
  args : List Nat
  cleanup : StackPopCleanup
deriving DecidableEq, Repr

/-- Side effects whose implementation lives outside the excerpt (file
system, allocator, TLS table, synchronization registry, randomness...).
The dispatcher arms record them in order; `delegate name args` stands
for the external shim body named `name`, including any write of its
result into the call's destination. -/
inductive Effect where
  | delegate (name : String) (args : List Nat) : Effect
  | genRandom (ptr : Nat) (len : Nat) : Effect
  | createFnAlloc (sym : String) : Effect
  | zeroInit (place : Nat) : Effect
  | writeCpus (place : Nat) : Effect
deriving DecidableEq, Repr

/-- The three disjoint error kinds of the excerpt: guest-observable
undefined behaviour (`throw_ub_format`), an unsupported-feature stop
(`throw_unsup_format`), and a fatal internal-consistency violation
(a Rust `assert!`/`unwrap` failure, which aborts the interpreter
process itself). -/
inductive MiriError where
  | ub (msg : String) : MiriError
  | unsupported (msg : String) : MiriError
  | fatal (msg : String) : MiriError
deriving DecidableEq, Repr

/-- The interpreter state observed and mutated by the excerpt. -/
structure MachineState where
  /-- the active thread's pending panic payload (`Thread::panic_payload`) -/
  panic_payload : Option Nat
  /-- the active thread's call stack, top first -/
  stack : List Frame
  /-- append-only history of `call_function` invocations, newest first -/
  calls : List FnCall
  /-- guest memory as a write log `(place id, value)`, newest first -/
  mem : List (Nat × Int)
  /-- history of `unwind_to_block` requests handed to the core, newest first -/
  unwinds : List StackPopUnwind
  /-- history of `end_call` notifications to the aliasing checker -/
  ended_calls : List Nat
  /-- log of string allocations made by `allocate_str`, newest first -/
  allocs : List String
  /-- counter for fresh allocation ids -/
  next_alloc : Nat
  /-- counter for fresh frame call ids -/
  next_call_id : Nat
  /-- external side effects performed by dispatcher arms, newest first -/
  effects : List Effect
  /-- whether the aliasing checker (stacked borrows) is enabled -/
  stacked_borrows : Bool
  /-- the target's panic strategy (`tcx.sess.panic_strategy()`) -/
  panic_strategy : PanicStrategy
  /-- null-terminated guest strings: `(pointer, contents)` -/
  cstrs : List (Nat × String)
  /-- the catalogue of dynamic symbols known to `Dlsym::from_str` -/
  dlsym_catalogue : List String
  /-- total number of guest threads (`get_total_thread_count`) -/
  thread_count : Nat
  /-- the "last error" side channel (`errno` / `GetLastError`) -/
  last_error : Int
deriving DecidableEq, Repr

/-- Result of one interpreter operation: `InterpResult` made explicit.
Both constructors carry the machine state, so an error records the
state at the moment of the throw. -/
inductive Res (α : Type) where
  | ok (a : α) (s : MachineState) : Res α
  | err (e : MiriError) (s : MachineState) : Res α
deriving DecidableEq, Repr

/-- Sequencing of interpreter operations (`?` in the source). -/
def Res.bind {α β : Type} : Res α → (α → MachineState → Res β) → Res β
  | .ok a s, f => f a s
  | .err e s, _ => .err e s

/-- Read the current value of a place from the write log. -/
def readMem (m : List (Nat × Int)) (p : Nat) : Option Int :=
  (m.find? (fun e => e.1 = p)).map (fun e => e.2)

/-- `write_scalar`/`write_null` to a place. -/
def write_scalar (v : Int) (p : Nat) (s : MachineState) : Res Unit :=
  .ok () { s with mem := (p, v) :: s.mem }

/-- `call_function`: push a frame for `f` with the given arguments and
return continuation, recording the invocation.  The new frame gets a
fresh call id and no catch metadata. -/
def call_function (f : Func) (args : List Nat) (cleanup : StackPopCleanup)
    (s : MachineState) : Res Unit :=
  .ok () { s with
    stack := ({ func := f, args := args, cleanup := cleanup,
                extra := { call_id := s.next_call_id, catch_unwind := none } }) :: s.stack,
    calls := ({ func := f, args := args, cleanup := cleanup }) :: s.calls,
    next_call_id := s.next_call_id + 1 }

/-- Modelled from the spec: `helpers::check_shim` (outside the excerpt).
Per spec section 6, the arguments' count and the caller's ABI must match
the call's declared arity and ABI exactly, else the call fails as a
usage/signature error before any side effect. -/
def check_shim (abi exp_abi : Abi) (args : List Nat) (arity : Nat)
    (s : MachineState) : Res (List Nat) :=
  if abi = exp_abi ∧ args.length = arity then .ok args s
  else .err (.ub "ABI or argument count mismatch in shim call") s

/-- Modelled from the spec: `helpers::check_arg_count` (outside the
excerpt); fails as a usage error unless the argument count is exact. -/
def check_arg_count (arity : Nat) (args : List Nat) (s : MachineState) :
    Res (List Nat) :=
  if args.length = arity then .ok args s
  else .err (.ub "incorrect number of arguments") s

/-- Modelled from the spec: the interpreter core's `unwind_to_block`
(outside the excerpt): the core is directed to begin unwinding toward
the given target; we record the request. -/
def unwind_to_block (u : StackPopUnwind) (s : MachineState) : Res Unit :=
  .ok () { s with unwinds := u :: s.unwinds }

/-- `handle_miri_start_panic` (panic.rs lines 42-63): check the shim
signature (one argument, Rust ABI), read the payload, assert that the
active thread has no pending payload (a Rust `assert!`, i.e. a fatal
interpreter abort on failure, never guest UB), store the payload, and
direct the core to unwind toward the caller-specified target. -/
def handle_miri_start_panic (abi : Abi) (args : List Nat)
    (unwind : StackPopUnwind) (s : MachineState) : Res Unit :=
  (check_shim abi .rust args 1 s).bind fun as s1 =>
    match as with
    | [payload] =>
      match s1.panic_payload with
      | some _ => .err (.fatal "the panic runtime should avoid double-panics") s1
      | none => unwind_to_block unwind { s1 with panic_payload := some payload }
    | _ => .err (.fatal "unreachable: checked argument count") s1

/-- `handle_try` (panic.rs lines 66-116): check the argument count
(`try_fn`, `data`, `catch_fn`), call `try_fn(data)` returning directly
to the caller, write `0` into the destination, and — only when the
target's panic strategy is `Unwind` — attach
`CatchUnwindData { catch_fn, data, dest, ret }` to the newly pushed
frame. -/
def handle_try (args : List Nat) (dest : Nat) (ret : Nat)
    (s : MachineState) : Res Unit :=
  (check_arg_count 3 args s).bind fun as s1 =>
    match as with
    | [try_fn, data, catch_fn] =>
      (call_function (.ptr try_fn) [data]
          (.goto (some ret) .skip) s1).bind fun _ s2 =>
      (write_scalar 0 dest s2).bind fun _ s3 =>
      if s3.panic_strategy = PanicStrategy.unwind then
        match s3.stack with
        | f :: rest =>
          let cu : CatchUnwindData :=
            { catch_fn := catch_fn, data := data, dest := dest, ret := ret }
          let f2 : Frame := { f with extra := { f.extra with catch_unwind := some cu } }
          .ok () { s3 with stack := f2 :: rest }
        | [] => .err (.fatal "frame_mut on empty stack") s3
      else
        .ok () s3
    | _ => .err (.fatal "unreachable: checked argument count") s1

/-- `stacked_borrows.end_call`: notify the aliasing checker (when
enabled) that the call with the given id ended. -/
def end_call (call_id : Nat) (s : MachineState) : MachineState :=
  if s.stacked_borrows
  then { s with ended_calls := call_id :: s.ended_calls } else s

/-- `handle_stack_pop` (panic.rs lines 118-166): notify the aliasing
checker of the call end; then, only if this pop happens during
unwinding and the popped frame carries catch metadata, write `1` into
the recorded destination, take the thread's pending panic payload
(its absence is a fatal `unwrap` failure), push `catch_fn(data,
payload)` returning to the recorded block, and tell the core a new
frame was pushed (`NoJump`); in every other case signal a normal pop. -/
def handle_stack_pop (extra : FrameData) (unwinding : Bool)
    (s : MachineState) : Res StackPopJump :=
  let s0 := end_call extra.call_id s
  match unwinding, extra.catch_unwind with
  | true, some cu =>
    (write_scalar 1 cu.dest s0).bind fun _ s1 =>
      match s1.panic_payload with
      | none => .err (.fatal "called Option::unwrap on a None value") s1
      | some payload =>
        (call_function (.ptr cu.catch_fn) [cu.data, payload]
            (.goto (some cu.ret) .skip)
            { s1 with panic_payload := none }).bind fun _ s2 =>
          .ok StackPopJump.noJump s2
  | _, _ => .ok StackPopJump.normal s0

/-- `allocate_str`: allocate a guest string, returning a fresh pointer. -/
def allocate_str (msg : String) (s : MachineState) : Res Nat :=
  .ok s.next_alloc
    { s with allocs := msg :: s.allocs, next_alloc := s.next_alloc + 1 }

/-- `start_panic` (panic.rs lines 168-185): allocate the message string
and call the `panic` lang item with it, with no normal-return
continuation and the given unwind continuation. -/
def start_panic (msg : String) (unwind : StackPopUnwind)
    (s : MachineState) : Res Unit :=
  (allocate_str msg s).bind fun msg_ptr s1 =>
    call_function .panicItem [msg_ptr] (.goto none unwind) s1

/-- `mir::AssertMessage`, as far as `assert_panic` distinguishes it:
a bounds check (with the evaluated index and length scalars), or any
other kind, carried by its `description()`. -/
inductive AssertKind where
  | boundsCheck (index : Nat) (len : Nat) : AssertKind
  | other (description : String) : AssertKind
deriving DecidableEq, Repr

/-- `assert_panic` (panic.rs lines 187-233): a bounds-check assertion is
forwarded to the `panic_bounds_check` lang item with the index and
length as arguments; every other kind is forwarded to `start_panic`
with the message description.  In both cases `Some cleanup` becomes
`StackPopUnwind::Cleanup(cleanup)` and `None` becomes
`StackPopUnwind::Skip`. -/
def assert_panic (msg : AssertKind) (unwind : Option Nat)
    (s : MachineState) : Res Unit :=
  match msg with
  | .boundsCheck index len =>
    call_function .panicBoundsCheck [index, len]
      (.goto none (match unwind with
        | some cleanup => .cleanup cleanup
        | none => .skip)) s
  | .other descr =>
    start_panic descr
      (match unwind with
        | some cleanup => .cleanup cleanup
        | none => .skip) s

/-- Modelled from the spec: the interpreter core's frame-pop loop
(section 1 declares the core out of scope; sections 2 and 4.1 fix its
contract).  The core pops up to `n` frames, handing each popped frame's
extra data to the frame-pop hook together with the unwinding flag; an
answer of `NoJump` means a new frame was pushed and the core must stop
popping (it performs no unwind-jump of its own). -/
def runPops : Nat → Bool → MachineState → Res Unit
  | 0, _, s => .ok () s
  | Nat.succ n, unwinding, s =>
    match s.stack with
    | [] => .ok () s
    | f :: rest =>
      (handle_stack_pop f.extra unwinding { s with stack := rest }).bind fun j s1 =>
        match j with
        | .normal => runPops n unwinding s1
        | .noJump => .ok () s1

/-- Modelled from the spec: the plain guest calls `try_fn` makes before
returning or panicking — each pushes an ordinary frame carrying no
catch metadata. -/
def pushFrames : List Nat → MachineState → Res Unit
  | [], s => .ok () s
  | f :: fs, s =>
    (call_function (.ptr f) [] (.goto (some 0) .skip) s).bind fun _ s1 =>
      pushFrames fs s1

/-- How the guest execution of `try_fn` ends: a normal return, or a
panic handed to `miri_start_panic` with the given payload and
caller-specified unwind continuation. -/
inductive TryOutcome where
  | normal : TryOutcome
  | panics (payload : Nat) (unwind : StackPopUnwind) : TryOutcome
deriving DecidableEq, Repr

/-- The record of the `call_function` invocations made by
`pushFrames mids`, newest first. -/
def midCalls (mids : List Nat) : List FnCall :=
  (mids.map fun f =>
    { func := .ptr f, args := [], cleanup := .goto (some 0) .skip }).reverse

/-- Modelled from the spec: one whole guest execution of the protected
call (spec section 8).  The `try` intrinsic handler runs, `try_fn`
pushes `mids` plain frames, and then either returns normally (the core
pops every frame back down with `unwinding = false`) or panics (the
payload is handed to `miri_start_panic` and the core pops every frame
with `unwinding = true`). -/
def tryScenario (args : List Nat) (dest ret : Nat) (mids : List Nat)
    (outcome : TryOutcome) (s : MachineState) : Res Unit :=
  (handle_try args dest ret s).bind fun _ s1 =>
    (pushFrames mids s1).bind fun _ s2 =>
      match outcome with
      | .normal => runPops (mids.length + 1) false s2
      | .panics payload u =>
        (handle_miri_start_panic .rust [payload] u s2).bind fun _ s3 =>
          runPops (mids.length + 1) true s3

/-! ### Basic lemmas about the embedded operations -/

@[simp] theorem end_call_stack (id : Nat) (s : MachineState) :
    (end_call id s).stack = s.stack := by
  unfold end_call; split <;> rfl

@[simp] theorem end_call_calls (id : Nat) (s : MachineState) :
    (end_call id s).calls = s.calls := by
  unfold end_call; split <;> rfl

@[simp] theorem end_call_mem (id : Nat) (s : MachineState) :
    (end_call id s).mem = s.mem := by
  unfold end_call; split <;> rfl

@[simp] theorem end_call_panic_payload (id : Nat) (s : MachineState) :
    (end_call id s).panic_payload = s.panic_payload := by
  unfold end_call; split <;> rfl

@[simp] theorem end_call_unwinds (id : Nat) (s : MachineState) :
    (end_call id s).unwinds = s.unwinds := by
  unfold end_call; split <;> rfl

@[simp] theorem end_call_next_call_id (id : Nat) (s : MachineState) :
    (end_call id s).next_call_id = s.next_call_id := by
  unfold end_call; split <;> rfl

@[simp] theorem end_call_stacked_borrows (id : Nat) (s : MachineState) :
    (end_call id s).stacked_borrows = s.stacked_borrows := by
  unfold end_call; split <;> rfl

theorem handle_try_eq (try_fn data catch_fn dest ret : Nat) (s : MachineState) :
    handle_try [try_fn, data, catch_fn] dest ret s = .ok ()
      { s with
        stack := ({ func := .ptr try_fn, args := [data],
                    cleanup := .goto (some ret) .skip,
                    extra := { call_id := s.next_call_id,
                               catch_unwind :=
                                 if s.panic_strategy = PanicStrategy.unwind
                                 then some ⟨catch_fn, data, dest, ret⟩
                                 else none } }) :: s.stack,
        calls := ({ func := .ptr try_fn, args := [data],
                    cleanup := .goto (some ret) .skip }) :: s.calls,
        next_call_id := s.next_call_id + 1,
        mem := (dest, 0) :: s.mem } := by
  cases hs : s.panic_strategy <;>
    simp [handle_try, check_arg_count, Res.bind, call_function, write_scalar, hs]

theorem handle_stack_pop_normal (extra : FrameData) (u : Bool) (s : MachineState)
    (h : u = false ∨ extra.catch_unwind = none) :
    handle_stack_pop extra u s = .ok .normal (end_call extra.call_id s) := by
  rcases h with h | h
  · subst h
    cases extra.catch_unwind <;> rfl
  · cases u <;> simp [handle_stack_pop, h]

theorem handle_stack_pop_catch (extra : FrameData) (cu : CatchUnwindData)
    (p : Nat) (s : MachineState)
    (hcu : extra.catch_unwind = some cu) (hp : s.panic_payload = some p) :
    ∃ s2, handle_stack_pop extra true s = .ok .noJump s2 ∧
      s2.mem = (cu.dest, 1) :: s.mem ∧
      s2.panic_payload = none ∧
      s2.calls = ({ func := .ptr cu.catch_fn, args := [cu.data, p],
                    cleanup := .goto (some cu.ret) .skip } : FnCall) :: s.calls ∧
      s2.unwinds = s.unwinds := by
  refine ⟨({ end_call extra.call_id s with
      mem := (cu.dest, 1) :: (end_call extra.call_id s).mem,
      panic_payload := none,
      stack := ({ func := Func.ptr cu.catch_fn, args := [cu.data, p],
                  cleanup := StackPopCleanup.goto (some cu.ret) StackPopUnwind.skip,
                  extra := { call_id := (end_call extra.call_id s).next_call_id,
                             catch_unwind := none } }) ::
        (end_call extra.call_id s).stack,
      calls := ({ func := Func.ptr cu.catch_fn, args := [cu.data, p],
                  cleanup := StackPopCleanup.goto (some cu.ret) StackPopUnwind.skip }) ::
        (end_call extra.call_id s).calls,
      next_call_id := (end_call extra.call_id s).next_call_id + 1 }), ?_, ?_, ?_, ?_, ?_⟩
  · simp [handle_stack_pop, hcu, write_scalar, Res.bind, hp, call_function]
  · simp
  · rfl
  · simp
  · simp

theorem handle_stack_pop_missing (extra : FrameData) (cu : CatchUnwindData)
    (s : MachineState)
    (hcu : extra.catch_unwind = some cu) (hp : s.panic_payload = none) :
    handle_stack_pop extra true s =
      .err (.fatal "called Option::unwrap on a None value")
        ({ end_call extra.call_id s with
           mem := (cu.dest, 1) :: (end_call extra.call_id s).mem }) := by
  simp [handle_stack_pop, hcu, write_scalar, Res.bind, hp]

theorem miri_start_panic_ok (payload : Nat) (unwind : StackPopUnwind)
    (s : MachineState) (hp : s.panic_payload = none) :
    handle_miri_start_panic .rust [payload] unwind s =
      .ok () { s with panic_payload := some payload,
                      unwinds := unwind :: s.unwinds } := by
  simp [handle_miri_start_panic, check_shim, Res.bind, hp, unwind_to_block]

theorem miri_start_panic_double (payload : Nat) (unwind : StackPopUnwind)
    (s : MachineState) (hp : s.panic_payload.isSome) :
    handle_miri_start_panic .rust [payload] unwind s =
      .err (.fatal "the panic runtime should avoid double-panics") s := by
  obtain ⟨q, hq⟩ := Option.isSome_iff_exists.mp hp
  simp [handle_miri_start_panic, check_shim, Res.bind, hq]

theorem pushFrames_spec (mids : List Nat) (s : MachineState) :
    ∃ fs, pushFrames mids s = .ok () { s with
        stack := fs ++ s.stack,
        calls := midCalls mids ++ s.calls,
        next_call_id := s.next_call_id + mids.length } ∧
      (∀ f ∈ fs, f.extra.catch_unwind = none) ∧
      fs.length = mids.length := by
  induction mids generalizing s with
  | nil =>
    refine ⟨[], ?_, by simp, rfl⟩
    simp [pushFrames, midCalls]
  | cons m ms ih =>
    obtain ⟨fs, heq, hnone, hlen⟩ := ih
      { s with
        stack := ({ func := Func.ptr m, args := [],
                    cleanup := StackPopCleanup.goto (some 0) StackPopUnwind.skip,
                    extra := { call_id := s.next_call_id, catch_unwind := none } }) :: s.stack,
        calls := ({ func := Func.ptr m, args := [],
                    cleanup := StackPopCleanup.goto (some 0) StackPopUnwind.skip }) :: s.calls,
        next_call_id := s.next_call_id + 1 }
    refine ⟨fs ++ [{ func := Func.ptr m, args := [],
                     cleanup := StackPopCleanup.goto (some 0) StackPopUnwind.skip,
                     extra := { call_id := s.next_call_id, catch_unwind := none } }], ?_, ?_, ?_⟩
    · show (call_function (Func.ptr m) [] (.goto (some 0) .skip) s).bind _ = _
      rw [call_function]
      show pushFrames ms _ = _
      rw [heq]
      apply congrArg (Res.ok ())
      simp [midCalls, List.append_assoc]
      omega
    · intro f hf
      rcases List.mem_append.mp hf with h | h
      · exact hnone f h
      · simp at h; subst h; rfl
    · simp [hlen]

theorem runPops_skip (fs base : List Frame) (k : Nat) (u : Bool)
    (s : MachineState)
    (hstack : s.stack = fs ++ base)
    (hnone : ∀ f ∈ fs, f.extra.catch_unwind = none) :
    ∃ s1, runPops (fs.length + k) u s = runPops k u s1 ∧
      s1.stack = base ∧ s1.calls = s.calls ∧ s1.mem = s.mem ∧
      s1.panic_payload = s.panic_payload ∧ s1.unwinds = s.unwinds ∧
      s1.next_call_id = s.next_call_id := by
  induction fs generalizing s with
  | nil =>
    exact ⟨s, by simp, by simpa using hstack, rfl, rfl, rfl, rfl, rfl⟩
  | cons f fs ih =>
    have hpop := handle_stack_pop_normal f.extra u { s with stack := fs ++ base }
      (Or.inr (hnone f (by simp)))
    have hlen : (f :: fs).length + k = Nat.succ (fs.length + k) := by
      simp [List.length_cons]
      omega
    have hstep : runPops ((f :: fs).length + k) u s =
        runPops (fs.length + k) u
          (end_call f.extra.call_id { s with stack := fs ++ base }) := by
      rw [hlen]
      rw [runPops, hstack]
      simp [Res.bind, hpop]
    obtain ⟨s1, hrun, h1, h2, h3, h4, h5, h6⟩ :=
      ih (end_call f.extra.call_id { s with stack := fs ++ base })
        (by simp) (fun g hg => hnone g (by simp [hg]))
    refine ⟨s1, hstep.trans hrun, h1, ?_, ?_, ?_, ?_, ?_⟩ <;> simp [h2, h3, h4, h5, h6]

/-- Whether an interpreter run succeeded. -/
def Res.isOk {α : Type} : Res α → Bool
  | .ok _ _ => true
  | .err _ _ => false

/-- The machine state a run ended in. -/
def Res.state {α : Type} : Res α → MachineState
  | .ok _ s => s
  | .err _ s => s


theorem handle_try_eq_unwind (try_fn data catch_fn dest ret : Nat)
    (s : MachineState) (hs : s.panic_strategy = PanicStrategy.unwind) :
    handle_try [try_fn, data, catch_fn] dest ret s = .ok ()
      { s with
        stack := ({ func := .ptr try_fn, args := [data],
                    cleanup := .goto (some ret) .skip,
                    extra := { call_id := s.next_call_id,
                               catch_unwind := some ⟨catch_fn, data, dest, ret⟩ } }) :: s.stack,
        calls := ({ func := .ptr try_fn, args := [data],
                    cleanup := .goto (some ret) .skip }) :: s.calls,
        next_call_id := s.next_call_id + 1,
        mem := (dest, 0) :: s.mem } := by
  simp [handle_try, check_arg_count, Res.bind, call_function, write_scalar, hs]

theorem runPops_try_normal (F : Frame) (fs sstack : List Frame)
    (S2 : MachineState)
    (hstack : S2.stack = fs ++ F :: sstack)
    (hnone : ∀ f ∈ fs, f.extra.catch_unwind = none) :
    ∃ sf, runPops (fs.length + 1) false S2 = .ok () sf ∧
      sf.mem = S2.mem ∧ sf.calls = S2.calls ∧
      sf.panic_payload = S2.panic_payload := by
  obtain ⟨s5, hrun, hst, hcl, hmm, hpl, _, _⟩ :=
    runPops_skip fs (F :: sstack) 1 false S2 hstack hnone
  have hpop := handle_stack_pop_normal F.extra false
    { s5 with stack := sstack } (Or.inl rfl)
  have h2 : runPops 1 false s5 = .ok ()
      (end_call F.extra.call_id { s5 with stack := sstack }) := by
    rw [show (1 : Nat) = Nat.succ 0 from rfl]
    rw [runPops, hst]
    simp [Res.bind, hpop, runPops]
  refine ⟨_, hrun.trans h2, ?_, ?_, ?_⟩ <;> simp [hcl, hmm, hpl]

theorem runPops_try_panic (F : Frame) (cu : CatchUnwindData) (p : Nat)
    (fs sstack : List Frame) (S3 : MachineState)
    (hstack : S3.stack = fs ++ F :: sstack)
    (hF : F.extra.catch_unwind = some cu)
    (hnone : ∀ f ∈ fs, f.extra.catch_unwind = none)
    (hp : S3.panic_payload = some p) :
    ∃ sf, runPops (fs.length + 1) true S3 = .ok () sf ∧
      sf.mem = (cu.dest, 1) :: S3.mem ∧
      sf.panic_payload = none ∧
      sf.calls = ({ func := .ptr cu.catch_fn, args := [cu.data, p],
                    cleanup := .goto (some cu.ret) .skip } : FnCall) :: S3.calls := by
  obtain ⟨s5, hrun, hst, hcl, hmm, hpl, _, _⟩ :=
    runPops_skip fs (F :: sstack) 1 true S3 hstack hnone
  obtain ⟨s6, hpop, hm6, hp6, hc6, _⟩ :=
    handle_stack_pop_catch F.extra cu p { s5 with stack := sstack } hF
      (by simp [hpl, hp])
  have h2 : runPops 1 true s5 = .ok () s6 := by
    rw [show (1 : Nat) = Nat.succ 0 from rfl]
    rw [runPops, hst]
    simp [Res.bind, hpop, runPops]
  refine ⟨s6, hrun.trans h2, ?_, hp6, ?_⟩
  · rw [hm6]; simp [hmm]
  · rw [hc6]; simp [hcl]

theorem tryScenario_normal_eq (try_fn data catch_fn dest ret : Nat)
    (mids : List Nat) (s : MachineState)
    (hp : s.panic_payload = none) (hs : s.panic_strategy = PanicStrategy.unwind) :
    ∃ sf, tryScenario [try_fn, data, catch_fn] dest ret mids .normal s = .ok () sf ∧
      sf.mem = (dest, 0) :: s.mem ∧
      sf.calls = midCalls mids ++
        ({ func := .ptr try_fn, args := [data],
           cleanup := .goto (some ret) .skip } : FnCall) :: s.calls ∧
      sf.panic_payload = none := by
  have h1 : tryScenario [try_fn, data, catch_fn] dest ret mids .normal s =
      (handle_try [try_fn, data, catch_fn] dest ret s).bind fun _ s1 =>
        (pushFrames mids s1).bind fun _ s2 =>
          runPops (mids.length + 1) false s2 := rfl
  rw [h1, handle_try_eq_unwind try_fn data catch_fn dest ret s hs]
  simp only [Res.bind]
  obtain ⟨fs, hpush, hnone, hlen⟩ := pushFrames_spec mids
    { s with
      stack := ({ func := Func.ptr try_fn, args := [data],
                  cleanup := StackPopCleanup.goto (some ret) StackPopUnwind.skip,
                  extra := { call_id := s.next_call_id,
                             catch_unwind := some ⟨catch_fn, data, dest, ret⟩ } }) :: s.stack,
      calls := ({ func := Func.ptr try_fn, args := [data],
                  cleanup := StackPopCleanup.goto (some ret) StackPopUnwind.skip }) :: s.calls,
      next_call_id := s.next_call_id + 1,
      mem := (dest, 0) :: s.mem }
  rw [hpush]
  simp only [Res.bind]
  rw [← hlen]
  obtain ⟨sf, hfin, hm, hc, hpf⟩ := runPops_try_normal
    ({ func := Func.ptr try_fn, args := [data],
       cleanup := StackPopCleanup.goto (some ret) StackPopUnwind.skip,
       extra := { call_id := s.next_call_id,
                  catch_unwind := some ⟨catch_fn, data, dest, ret⟩ } }) fs s.stack
    ({ s with
       stack := fs ++
         (({ func := Func.ptr try_fn, args := [data],
             cleanup := StackPopCleanup.goto (some ret) StackPopUnwind.skip,
             extra := { call_id := s.next_call_id,
                        catch_unwind := some ⟨catch_fn, data, dest, ret⟩ } } : Frame) :: s.stack),
       calls := midCalls mids ++
         (({ func := Func.ptr try_fn, args := [data],
             cleanup := StackPopCleanup.goto (some ret) StackPopUnwind.skip } : FnCall) :: s.calls),
       next_call_id := s.next_call_id + 1 + fs.length,
       mem := (dest, 0) :: s.mem })
    rfl hnone
  exact ⟨sf, hfin, hm, hc, hpf.trans hp⟩

theorem tryScenario_panic_eq (try_fn data catch_fn dest ret payload : Nat)
    (u : StackPopUnwind) (mids : List Nat) (s : MachineState)
    (hp : s.panic_payload = none) (hs : s.panic_strategy = PanicStrategy.unwind) :
    ∃ sf, tryScenario [try_fn, data, catch_fn] dest ret mids
        (.panics payload u) s = .ok () sf ∧
      sf.mem = (dest, 1) :: (dest, 0) :: s.mem ∧
      sf.calls = ({ func := .ptr catch_fn, args := [data, payload],
                    cleanup := .goto (some ret) .skip } : FnCall) ::
        (midCalls mids ++
          ({ func := .ptr try_fn, args := [data],
             cleanup := .goto (some ret) .skip } : FnCall) :: s.calls) ∧
      sf.panic_payload = none := by
  have h1 : tryScenario [try_fn, data, catch_fn] dest ret mids
        (.panics payload u) s =
      (handle_try [try_fn, data, catch_fn] dest ret s).bind fun _ s1 =>
        (pushFrames mids s1).bind fun _ s2 =>
          (handle_miri_start_panic .rust [payload] u s2).bind fun _ s3 =>
            runPops (mids.length + 1) true s3 := rfl
  rw [h1, handle_try_eq_unwind try_fn data catch_fn dest ret s hs]
  simp only [Res.bind]
  obtain ⟨fs, hpush, hnone, hlen⟩ := pushFrames_spec mids
    { s with
      stack := ({ func := Func.ptr try_fn, args := [data],
                  cleanup := StackPopCleanup.goto (some ret) StackPopUnwind.skip,
                  extra := { call_id := s.next_call_id,
                             catch_unwind := some ⟨catch_fn, data, dest, ret⟩ } }) :: s.stack,
      calls := ({ func := Func.ptr try_fn, args := [data],
                  cleanup := StackPopCleanup.goto (some ret) StackPopUnwind.skip }) :: s.calls,
      next_call_id := s.next_call_id + 1,
      mem := (dest, 0) :: s.mem }
  rw [hpush]
  simp only [Res.bind]
  rw [miri_start_panic_ok payload u
    ({ s with
       stack := fs ++
         (({ func := Func.ptr try_fn, args := [data],
             cleanup := StackPopCleanup.goto (some ret) StackPopUnwind.skip,
             extra := { call_id := s.next_call_id,
                        catch_unwind := some ⟨catch_fn, data, dest, ret⟩ } } : Frame) :: s.stack),
       calls := midCalls mids ++
         (({ func := Func.ptr try_fn, args := [data],
             cleanup := StackPopCleanup.goto (some ret) StackPopUnwind.skip } : FnCall) :: s.calls),
       next_call_id := s.next_call_id + 1 + mids.length,
       mem := (dest, 0) :: s.mem }) hp]
  simp only [Res.bind]
  rw [← hlen]
  obtain ⟨sf, hfin, hm, hpf, hc⟩ := runPops_try_panic
    ({ func := Func.ptr try_fn, args := [data],
       cleanup := StackPopCleanup.goto (some ret) StackPopUnwind.skip,
       extra := { call_id := s.next_call_id,
                  catch_unwind := some ⟨catch_fn, data, dest, ret⟩ } })
    ⟨catch_fn, data, dest, ret⟩ payload fs s.stack
    ({ s with
       stack := fs ++
         (({ func := Func.ptr try_fn, args := [data],
             cleanup := StackPopCleanup.goto (some ret) StackPopUnwind.skip,
             extra := { call_id := s.next_call_id,
                        catch_unwind := some ⟨catch_fn, data, dest, ret⟩ } } : Frame) :: s.stack),
       calls := midCalls mids ++
         (({ func := Func.ptr try_fn, args := [data],
             cleanup := StackPopCleanup.goto (some ret) StackPopUnwind.skip } : FnCall) :: s.calls),
       next_call_id := s.next_call_id + 1 + fs.length,
       mem := (dest, 0) :: s.mem,
       panic_payload := some payload,
       unwinds := u :: s.unwinds })
    rfl rfl hnone rfl
  exact ⟨sf, hfin, hm, hc, hpf⟩

/-! ### Claim theorems -/

/-- A concrete machine state used by the witnesses: empty logs, no
pending payload, stacked borrows on, unwind panic strategy, one guest
thread. -/
def initState : MachineState :=
  { panic_payload := none, stack := [], calls := [], mem := [],
    unwinds := [], ended_calls := [], allocs := [], next_alloc := 0,
    next_call_id := 0, effects := [], stacked_borrows := true,
    panic_strategy := .unwind, cstrs := [], dlsym_catalogue := [],
    thread_count := 1, last_error := 0 }

/-- C1: for every guest execution of the protected-call (try)
primitive: if `try_fn` returns normally the destination holds `0`,
`catch_fn` is never invoked (the call log gains exactly the `try_fn`
call and the calls `try_fn` itself made), and no payload is pending;
if `try_fn` panics, the destination holds `1`, `catch_fn` is invoked
exactly once with the `data` argument and the exact payload passed to
`miri_start_panic`, and the pending payload is `None` afterward. -/
theorem claim_C1_protected_call :
    ∀ (try_fn data catch_fn dest ret : Nat) (mids : List Nat) (s : MachineState),
      s.panic_payload = none → s.panic_strategy = PanicStrategy.unwind →
      ((tryScenario [try_fn, data, catch_fn] dest ret mids .normal s).isOk = true ∧
       readMem (tryScenario [try_fn, data, catch_fn] dest ret mids
         .normal s).state.mem dest = some 0 ∧
       (tryScenario [try_fn, data, catch_fn] dest ret mids .normal s).state.calls =
         midCalls mids ++
           (⟨.ptr try_fn, [data], .goto (some ret) .skip⟩ : FnCall) :: s.calls ∧
       (tryScenario [try_fn, data, catch_fn] dest ret mids
         .normal s).state.panic_payload = none) ∧
      (∀ (payload : Nat) (u : StackPopUnwind),
       (tryScenario [try_fn, data, catch_fn] dest ret mids
         (.panics payload u) s).isOk = true ∧
       readMem (tryScenario [try_fn, data, catch_fn] dest ret mids
         (.panics payload u) s).state.mem dest = some 1 ∧
       (tryScenario [try_fn, data, catch_fn] dest ret mids
         (.panics payload u) s).state.calls =
         (⟨.ptr catch_fn, [data, payload], .goto (some ret) .skip⟩ : FnCall) ::
           (midCalls mids ++
             (⟨.ptr try_fn, [data], .goto (some ret) .skip⟩ : FnCall) :: s.calls) ∧
       (tryScenario [try_fn, data, catch_fn] dest ret mids
         (.panics payload u) s).state.panic_payload = none) := by
  intro try_fn data catch_fn dest ret mids s hp hs
  constructor
  · obtain ⟨sf, heq, hm, hc, hpf⟩ :=
      tryScenario_normal_eq try_fn data catch_fn dest ret mids s hp hs
    rw [heq]
    refine ⟨rfl, ?_, ?_, ?_⟩
    · show readMem sf.mem dest = some 0
      rw [hm]
      simp [readMem, List.find?]
    · exact hc
    · exact hpf
  · intro payload u
    obtain ⟨sf, heq, hm, hc, hpf⟩ :=
      tryScenario_panic_eq try_fn data catch_fn dest ret payload u mids s hp hs
    rw [heq]
    refine ⟨rfl, ?_, ?_, ?_⟩
    · show readMem sf.mem dest = some 1
      rw [hm]
      simp [readMem, List.find?]
    · exact hc
    · exact hpf

/-- Witness for C1: a concrete panicking protected call with two
intermediate frames; the destination holds `1`, `catch_fn = 12` is
invoked exactly once with `(data, payload) = (11, 7)`, and no payload
is pending afterward. -/
theorem claim_C1_protected_call_witness :
    (tryScenario [10, 11, 12] 2 3 [20, 21]
      (.panics 7 (.cleanup 9)) initState).isOk = true ∧
    readMem (tryScenario [10, 11, 12] 2 3 [20, 21]
      (.panics 7 (.cleanup 9)) initState).state.mem 2 = some 1 ∧
    (tryScenario [10, 11, 12] 2 3 [20, 21]
      (.panics 7 (.cleanup 9)) initState).state.calls =
      (⟨.ptr 12, [11, 7], .goto (some 3) .skip⟩ : FnCall) ::
        (midCalls [20, 21] ++
          (⟨.ptr 10, [11], .goto (some 3) .skip⟩ : FnCall) :: initState.calls) ∧
    (tryScenario [10, 11, 12] 2 3 [20, 21]
      (.panics 7 (.cleanup 9)) initState).state.panic_payload = none :=
  (claim_C1_protected_call 10 11 12 2 3 [20, 21] initState rfl rfl).2 7 (.cleanup 9)

/-- C2: the frame-pop hook: if the pop is not during unwinding, or the
popped frame carries no CatchUnwindData, it signals a normal pop with no
control-flow change; otherwise it writes `1` into the recorded dest,
takes and clears the pending panic payload (whose absence is a fatal
internal-consistency violation), pushes a call to `catch_fn(data,
payload)` whose normal return resumes at the recorded `ret` block, and
signals `NoJump` so the core performs no unwind-jump of its own. -/
theorem claim_C2_stack_pop_hook :
    ∀ (extra : FrameData) (unwinding : Bool) (s : MachineState),
      (¬(unwinding = true ∧ extra.catch_unwind.isSome = true) →
        handle_stack_pop extra unwinding s =
          .ok .normal (end_call extra.call_id s)) ∧
      (∀ cu, extra.catch_unwind = some cu →
        (∀ p, s.panic_payload = some p →
          handle_stack_pop extra true s = .ok .noJump
            ({ end_call extra.call_id s with
               mem := (cu.dest, 1) :: (end_call extra.call_id s).mem,
               panic_payload := none,
               stack := (⟨.ptr cu.catch_fn, [cu.data, p],
                 .goto (some cu.ret) .skip,
                 ⟨(end_call extra.call_id s).next_call_id, none⟩⟩ : Frame) ::
                 (end_call extra.call_id s).stack,
               calls := (⟨.ptr cu.catch_fn, [cu.data, p],
                 .goto (some cu.ret) .skip⟩ : FnCall) ::
                 (end_call extra.call_id s).calls,
               next_call_id := (end_call extra.call_id s).next_call_id + 1 })) ∧
        (s.panic_payload = none →
          handle_stack_pop extra true s =
            .err (.fatal "called Option::unwrap on a None value")
              ({ end_call extra.call_id s with
                 mem := (cu.dest, 1) :: (end_call extra.call_id s).mem }))) := by
  intro extra unwinding s
  refine ⟨?_, fun cu hcu => ⟨fun p hp => ?_, fun hp => ?_⟩⟩
  · intro h
    cases unwinding with
    | false => exact handle_stack_pop_normal _ _ _ (Or.inl rfl)
    | true =>
      cases hcu : extra.catch_unwind with
      | none => exact handle_stack_pop_normal _ _ _ (Or.inr hcu)
      | some c => exact absurd ⟨rfl, by simp [hcu]⟩ h
  · simp [handle_stack_pop, hcu, write_scalar, Res.bind, hp, call_function]
  · exact handle_stack_pop_missing extra cu s hcu hp

/-- Witness for C2: a concrete unwinding pop of a frame carrying catch
metadata, with payload `7` pending. -/
theorem claim_C2_stack_pop_hook_witness :
    handle_stack_pop ⟨0, some ⟨5, 6, 2, 3⟩⟩ true
        ({ initState with panic_payload := some 7 }) = .ok .noJump
      ({ end_call 0 ({ initState with panic_payload := some 7 }) with
         mem := (2, 1) ::
           (end_call 0 ({ initState with panic_payload := some 7 })).mem,
         panic_payload := none,
         stack := (⟨.ptr 5, [6, 7], .goto (some 3) .skip,
           ⟨(end_call 0 ({ initState with panic_payload := some 7 })).next_call_id,
            none⟩⟩ : Frame) ::
           (end_call 0 ({ initState with panic_payload := some 7 })).stack,
         calls := (⟨.ptr 5, [6, 7], .goto (some 3) .skip⟩ : FnCall) ::
           (end_call 0 ({ initState with panic_payload := some 7 })).calls,
         next_call_id :=
           (end_call 0 ({ initState with panic_payload := some 7 })).next_call_id
             + 1 }) :=
  ((claim_C2_stack_pop_hook ⟨0, some ⟨5, 6, 2, 3⟩⟩ true
    ({ initState with panic_payload := some 7 })).2 ⟨5, 6, 2, 3⟩ rfl).1 7 rfl

/-- C3: the `miri_start_panic` intrinsic handler given a single payload
argument: a pending payload is a fatal internal-consistency violation
that aborts the interpreter process itself (a `fatal` error, never a
guest-observable `ub` error); otherwise the payload is stored in the
thread's slot and the core is directed to unwind toward the
caller-specified target. -/
theorem claim_C3_miri_start_panic :
    ∀ (payload : Nat) (unwind : StackPopUnwind) (s : MachineState),
      (s.panic_payload.isSome →
        handle_miri_start_panic .rust [payload] unwind s =
          .err (.fatal "the panic runtime should avoid double-panics") s) ∧
      (s.panic_payload = none →
        handle_miri_start_panic .rust [payload] unwind s =
          .ok () { s with panic_payload := some payload,
                          unwinds := unwind :: s.unwinds }) := by
  intro payload unwind s
  exact ⟨miri_start_panic_double payload unwind s,
         miri_start_panic_ok payload unwind s⟩

/-- Witness for C3: storing payload `7` on a thread with no pending
payload succeeds and records the unwind request. -/
theorem claim_C3_miri_start_panic_witness :
    handle_miri_start_panic .rust [7] (.cleanup 4) initState =
      .ok () { initState with panic_payload := some 7,
                              unwinds := .cleanup 4 :: initState.unwinds } :=
  (claim_C3_miri_start_panic 7 (.cleanup 4) initState).2 rfl

/-- C4: for every frame carrying CatchUnwindData, the data is consumed
at most once and only when that frame is popped during unwinding; a
normal (non-unwinding) pop never consumes it: the hook then answers a
normal pop and leaves the call log, memory and pending payload
untouched.  Any pop that does invoke a catch callback (the call log
grows) is an unwinding pop of a frame whose metadata is present, emits
exactly one call, and answers `NoJump`. -/
theorem claim_C4_catch_consumed_once :
    ∀ (extra : FrameData) (u : Bool) (s : MachineState),
      (handle_stack_pop extra false s =
          .ok .normal (end_call extra.call_id s) ∧
        (end_call extra.call_id s).calls = s.calls ∧
        (end_call extra.call_id s).mem = s.mem ∧
        (end_call extra.call_id s).panic_payload = s.panic_payload) ∧
      (∀ r sf, handle_stack_pop extra u s = .ok r sf → sf.calls ≠ s.calls →
        u = true ∧ extra.catch_unwind.isSome = true ∧ r = .noJump ∧
        ∃ cu p, extra.catch_unwind = some cu ∧ s.panic_payload = some p ∧
          sf.calls = (⟨.ptr cu.catch_fn, [cu.data, p],
            .goto (some cu.ret) .skip⟩ : FnCall) :: s.calls) := by
  intro extra u s
  constructor
  · exact ⟨handle_stack_pop_normal extra false s (Or.inl rfl),
      by simp, by simp, by simp⟩
  · intro r sf hrun hne
    cases u with
    | false =>
      rw [handle_stack_pop_normal extra false s (Or.inl rfl)] at hrun
      cases hrun
      simp at hne
    | true =>
      cases hcu : extra.catch_unwind with
      | none =>
        rw [handle_stack_pop_normal extra true s (Or.inr hcu)] at hrun
        cases hrun
        simp at hne
      | some cu =>
        cases hp : s.panic_payload with
        | none =>
          rw [handle_stack_pop_missing extra cu s hcu hp] at hrun
          cases hrun
        | some p =>
          obtain ⟨s2, hpop, _, _, hc2, _⟩ :=
            handle_stack_pop_catch extra cu p s hcu hp
          rw [hpop] at hrun
          cases hrun
          exact ⟨rfl, by simp, rfl, cu, p, rfl, rfl, hc2⟩

/-- Witness for C4: a concrete unwinding pop that consumes the catch
metadata satisfies the hypotheses of the consumption characterization. -/
theorem claim_C4_catch_consumed_once_witness :
    true = true ∧
    (FrameData.mk 0 (some ⟨5, 6, 2, 3⟩)).catch_unwind.isSome = true ∧
    StackPopJump.noJump = StackPopJump.noJump := by
  have h := (claim_C4_catch_consumed_once ⟨0, some ⟨5, 6, 2, 3⟩⟩ true
      ({ initState with panic_payload := some 7 })).2 .noJump
      (handle_stack_pop ⟨0, some ⟨5, 6, 2, 3⟩⟩ true
        ({ initState with panic_payload := some 7 })).state
      (by rfl) (by decide)
  exact ⟨rfl, h.2.1, h.2.2.1⟩

/-- C5: `CatchUnwindData { catch_fn, data, dest, ret }` is attached to
the newly pushed `try_fn` frame if and only if the target's panic
strategy is `Unwind`; when panics cannot unwind, the operation is the
same pure call to `try_fn` with no catch metadata attached. -/
theorem claim_C5_catch_data_iff_unwind :
    ∀ (try_fn data catch_fn dest ret : Nat) (s : MachineState),
      (s.panic_strategy = PanicStrategy.unwind →
        handle_try [try_fn, data, catch_fn] dest ret s = .ok ()
          { s with
            stack := (⟨.ptr try_fn, [data], .goto (some ret) .skip,
              ⟨s.next_call_id, some ⟨catch_fn, data, dest, ret⟩⟩⟩ : Frame) :: s.stack,
            calls := (⟨.ptr try_fn, [data],
              .goto (some ret) .skip⟩ : FnCall) :: s.calls,
            next_call_id := s.next_call_id + 1,
            mem := (dest, 0) :: s.mem }) ∧
      (s.panic_strategy ≠ PanicStrategy.unwind →
        handle_try [try_fn, data, catch_fn] dest ret s = .ok ()
          { s with
            stack := (⟨.ptr try_fn, [data], .goto (some ret) .skip,
              ⟨s.next_call_id, none⟩⟩ : Frame) :: s.stack,
            calls := (⟨.ptr try_fn, [data],
              .goto (some ret) .skip⟩ : FnCall) :: s.calls,
            next_call_id := s.next_call_id + 1,
            mem := (dest, 0) :: s.mem }) := by
  intro try_fn data catch_fn dest ret s
  constructor
  · intro hs
    exact handle_try_eq_unwind try_fn data catch_fn dest ret s hs
  · intro hs
    cases hst : s.panic_strategy with
    | unwind => exact absurd hst hs
    | abort =>
      simp [handle_try, check_arg_count, Res.bind, call_function,
        write_scalar, hst]

/-- Witness for C5: with the `Unwind` strategy the pushed frame carries
the catch metadata. -/
theorem claim_C5_catch_data_iff_unwind_witness :
    handle_try [10, 11, 12] 2 3 initState = .ok ()
      { initState with
        stack := (⟨.ptr 10, [11], .goto (some 3) .skip,
          ⟨initState.next_call_id, some ⟨12, 11, 2, 3⟩⟩⟩ : Frame) :: initState.stack,
        calls := (⟨.ptr 10, [11],
          .goto (some 3) .skip⟩ : FnCall) :: initState.calls,
        next_call_id := initState.next_call_id + 1,
        mem := (2, 0) :: initState.mem } :=
  (claim_C5_catch_data_iff_unwind 10 11 12 2 3 initState).1 rfl

/-- C6: `assert_panic` forwards a bounds-check assertion to the
bounds-check panic entry point with the evaluated index and length as
its two arguments, and every other assertion kind to `start_panic` with
the assertion's message description; in both cases `Some cleanup`
becomes a `Cleanup` unwind target and `None` becomes `Skip`. -/
theorem claim_C6_assert_panic_dispatch :
    ∀ (index len : Nat) (descr : String) (cleanup : Nat) (s : MachineState),
      (assert_panic (.boundsCheck index len) (some cleanup) s =
        call_function .panicBoundsCheck [index, len]
          (.goto none (.cleanup cleanup)) s) ∧
      (assert_panic (.boundsCheck index len) none s =
        call_function .panicBoundsCheck [index, len] (.goto none .skip) s) ∧
      (assert_panic (.other descr) (some cleanup) s =
        start_panic descr (.cleanup cleanup) s) ∧
      (assert_panic (.other descr) none s = start_panic descr .skip s) := by
  intro index len descr cleanup s
  exact ⟨rfl, rfl, rfl, rfl⟩

/-! ### Foreign-symbol dispatchers -/

/-- `EmulateByNameResult`: how a dispatcher answered. -/
inductive EmulateByNameResult where
  | needsJumping : EmulateByNameResult
  | alreadyJumped : EmulateByNameResult
  | notSupported : EmulateByNameResult
deriving DecidableEq, Repr

/-- Outcome of the common POSIX dispatcher: either one of the source's
`EmulateByNameResult` answers, or deferral to the target-specific
(linux/macos) dispatcher, which is outside the excerpt. -/
inductive DispatchOutcome where
  | result (r : EmulateByNameResult) : DispatchOutcome
  | platformSpecific : DispatchOutcome
deriving DecidableEq, Repr

/-- An arm body whose implementation lives outside the excerpt: record
the delegated shim call (which includes any write of its result into
the destination) as an external effect. -/
def delegate (name : String) (as : List Nat) (s : MachineState) : Res Unit :=
  .ok () { s with effects := .delegate name as :: s.effects }

/-- One fixed-arity dispatcher arm, as every non-variadic arm of both
source dispatchers is written: `check_shim` with the declared ABI and
arity first, then the arm body, then the `NeedsJumping` answer. -/
def fixedArm (exp_abi : Abi) (arity : Nat) (abi : Abi) (args : List Nat)
    (body : List Nat → MachineState → Res Unit) (s : MachineState) :
    Res DispatchOutcome :=
  (check_shim abi exp_abi args arity s).bind fun as s1 =>
    (body as s1).bind fun _ s2 => .ok (.result .needsJumping) s2

/-- Modelled from the spec: `check_abi_and_shim_symbol_clash` (helpers,
outside the excerpt), used by the variadic `open`/`fcntl` arms: only
the ABI is validated here; the argument count is checked inside the
delegated shim body, based on the first argument. -/
def check_abi_only (abi exp_abi : Abi) (s : MachineState) : Res Unit :=
  if abi = exp_abi then .ok () s
  else .err (.ub "ABI mismatch in shim call") s

/-- Modelled from the spec: `handle_unsupported` (helpers, outside the
excerpt): report an unsupported-feature condition, stopping
interpretation with a diagnostic distinct from undefined behaviour. -/
def handle_unsupported (msg : String) (s : MachineState) : Res Unit :=
  .err (.unsupported msg) s

/-- `set_last_error`: store into the platform's "last error" channel. -/
def set_last_error (v : Int) (s : MachineState) : Res Unit :=
  .ok () { s with last_error := v }

/-- `read_c_str`: read the null-terminated guest string at `p`. -/
def read_c_str (p : Nat) (s : MachineState) : Res String :=
  match s.cstrs.find? (fun e => e.1 = p) with
  | some e => .ok e.2 s
  | none => .err (.ub "read_c_str: no string at that pointer") s

/-- Miri's `PAGE_SIZE` constant (lib.rs, outside the excerpt). -/
def PAGE_SIZE : Int := 4096

/-- Miri's `NUM_CPUS` constant (lib.rs, outside the excerpt). -/
def NUM_CPUS : Int := 1

/-- Modelled from the spec: `eval_libc_i32`/`eval_libc` (helpers,
outside the excerpt), resolving target libc constant names; the values
are the x86_64-linux glibc ones for the names the excerpt uses. -/
def eval_libc_i32 : String → Int
  | "_SC_PAGESIZE" => 30
  | "_SC_NPROCESSORS_CONF" => 83
  | "_SC_NPROCESSORS_ONLN" => 84
  | "ENOTTY" => 25
  | "ERANGE" => 34
  | _ => 0

namespace Dlsym

/-- Modelled from the spec: `Dlsym::from_str` (shims/dlsym.rs, outside
the excerpt), looking the symbol name up in the catalogue of dynamic
symbols known to the emulator.  Per spec section 7, a nonexistent
symbol is a recoverable platform-level failure answered through the
normal return-value channel, so an unknown name resolves to `none`. -/
def from_str (catalogue : List String) (name : String) : Option String :=
  if name ∈ catalogue then some name else none

end Dlsym

/-- Rust `u64::is_power_of_two`. -/
def isPowerOfTwo (n : Nat) : Bool :=
  n ≠ 0 && Nat.land n (n - 1) = 0

/-- `posix_memalign` arm body (posix/foreign_items.rs lines 143-170):
alignment must be a power of two and at least pointer-sized (8 bytes),
else UB; with size `0` a null pointer is stored, otherwise a fresh
allocation; the call's own result is `0`. -/
def posix_memalign_body (ret align size : Nat) (dest : Nat)
    (s : MachineState) : Res Unit :=
  if ¬ isPowerOfTwo align then
    .err (.ub "posix_memalign: alignment must be a power of two") s
  else if align < 8 then
    .err (.ub "posix_memalign: alignment must be at least the size of a pointer") s
  else
    (if size = 0 then
      write_scalar 0 ret s
    else
      (write_scalar (Int.ofNat (s.next_alloc + 1)) ret
        { s with next_alloc := s.next_alloc + 1 })).bind fun _ s1 =>
      write_scalar 0 dest s1

/-- `dlsym` arm body (posix/foreign_items.rs lines 172-184): read the
symbol name; a known symbol yields a fresh function pointer, an unknown
one a null result.  The same logic implements Windows
`GetProcAddress` (windows/foreign_items.rs lines 215-228). -/
def dlsym_body (symbol : Nat) (dest : Nat) (s : MachineState) : Res Unit :=
  (read_c_str symbol s).bind fun symbol_name s1 =>
    match Dlsym.from_str s1.dlsym_catalogue symbol_name with
    | some d =>
      write_scalar (Int.ofNat (s1.next_alloc + 1)) dest
        { s1 with effects := .createFnAlloc d :: s1.effects,
                  next_alloc := s1.next_alloc + 1 }
    | none => write_scalar 0 dest s1

/-- `sysconf` arm body (posix/foreign_items.rs lines 186-209): look the
queried name up among the three supported sysconf names, writing the
associated value on a match and stopping with an unsupported-feature
error otherwise. -/
def sysconf_body (name : Int) (dest : Nat) (s : MachineState) : Res Unit :=
  let sysconfs : List (String × Int) :=
    [("_SC_PAGESIZE", PAGE_SIZE),
     ("_SC_NPROCESSORS_CONF", NUM_CPUS),
     ("_SC_NPROCESSORS_ONLN", NUM_CPUS)]
  match sysconfs.find? (fun e => eval_libc_i32 e.1 = name) with
  | some e => write_scalar e.2 dest s
  | none => .err (.unsupported "unimplemented sysconf name") s

/-- `isatty` arm body: nothing is a terminal; set `errno` to `ENOTTY`
and answer `0`. -/
def isatty_body (dest : Nat) (s : MachineState) : Res Unit :=
  (set_last_error (eval_libc_i32 "ENOTTY") s).bind fun _ s1 =>
    write_scalar 0 dest s1

/-- One entry of a dispatcher's shim table: the declared ABI and arity
validated by `check_shim` before the body runs, whether the arm is
guarded by `frame_in_std`, and the arm body (checked args,
destination). -/
structure ShimDecl where
  abi : Abi
  arity : Nat
  in_std_only : Bool
  body : List Nat → Nat → MachineState → Res Unit

/-- A body that only delegates to a shim implementation outside the
excerpt. -/
def delegateBody (name : String) : List Nat → Nat → MachineState → Res Unit :=
  fun as _ s => delegate name as s

/-- A body that writes a fixed value into the destination. -/
def writeIntBody (v : Int) : List Nat → Nat → MachineState → Res Unit :=
  fun _ dest s => write_scalar v dest s

namespace Posix

/-- The fixed-arity arms of the common POSIX dispatcher
(posix/foreign_items.rs), in source order: each arm's declared ABI
(always `C { unwind: false }`), arity, `frame_in_std` guard, and body.
`open`/`open64`/`fcntl` are variadic and handled separately. -/
def shims : List (String × ShimDecl) :=
  [("getenv", ⟨.c false, 1, false, delegateBody "getenv"⟩),
   ("unsetenv", ⟨.c false, 1, false, delegateBody "unsetenv"⟩),
   ("setenv", ⟨.c false, 3, false, delegateBody "setenv"⟩),
   ("getcwd", ⟨.c false, 2, false, delegateBody "getcwd"⟩),
   ("chdir", ⟨.c false, 1, false, delegateBody "chdir"⟩),
   ("read", ⟨.c false, 3, false, delegateBody "read"⟩),
   ("write", ⟨.c false, 3, false, delegateBody "write"⟩),
   ("unlink", ⟨.c false, 1, false, delegateBody "unlink"⟩),
   ("symlink", ⟨.c false, 2, false, delegateBody "symlink"⟩),
   ("rename", ⟨.c false, 2, false, delegateBody "rename"⟩),
   ("mkdir", ⟨.c false, 2, false, delegateBody "mkdir"⟩),
   ("rmdir", ⟨.c false, 1, false, delegateBody "rmdir"⟩),
   ("closedir", ⟨.c false, 1, false, delegateBody "closedir"⟩),
   ("lseek", ⟨.c false, 3, false, delegateBody "lseek64"⟩),
   ("lseek64", ⟨.c false, 3, false, delegateBody "lseek64"⟩),
   ("fsync", ⟨.c false, 1, false, delegateBody "fsync"⟩),
   ("fdatasync", ⟨.c false, 1, false, delegateBody "fdatasync"⟩),
   ("readlink", ⟨.c false, 3, false, delegateBody "readlink"⟩),
   ("posix_memalign", ⟨.c false, 3, false, fun as dest s =>
     match as with
     | [ret, align, size] => posix_memalign_body ret align size dest s
     | _ => .err (.fatal "unreachable: checked argument count") s⟩),
   ("dlsym", ⟨.c false, 2, false, fun as dest s =>
     match as with
     | [_handle, symbol] => dlsym_body symbol dest s
     | _ => .err (.fatal "unreachable: checked argument count") s⟩),
   ("sysconf", ⟨.c false, 1, false, fun as dest s =>
     match as with
     | [name] => sysconf_body (Int.ofNat name) dest s
     | _ => .err (.fatal "unreachable: checked argument count") s⟩),
   ("pthread_key_create", ⟨.c false, 2, false, delegateBody "pthread_key_create"⟩),
   ("pthread_key_delete", ⟨.c false, 1, false, delegateBody "pthread_key_delete"⟩),
   ("pthread_getspecific", ⟨.c false, 1, false, delegateBody "pthread_getspecific"⟩),
   ("pthread_setspecific", ⟨.c false, 2, false, delegateBody "pthread_setspecific"⟩),
   ("pthread_mutexattr_init", ⟨.c false, 1, false, delegateBody "pthread_mutexattr_init"⟩),
   ("pthread_mutexattr_settype", ⟨.c false, 2, false, delegateBody "pthread_mutexattr_settype"⟩),
   ("pthread_mutexattr_destroy", ⟨.c false, 1, false, delegateBody "pthread_mutexattr_destroy"⟩),
   ("pthread_mutex_init", ⟨.c false, 2, false, delegateBody "pthread_mutex_init"⟩),
   ("pthread_mutex_lock", ⟨.c false, 1, false, delegateBody "pthread_mutex_lock"⟩),
   ("pthread_mutex_trylock", ⟨.c false, 1, false, delegateBody "pthread_mutex_trylock"⟩),
   ("pthread_mutex_unlock", ⟨.c false, 1, false, delegateBody "pthread_mutex_unlock"⟩),
   ("pthread_mutex_destroy", ⟨.c false, 1, false, delegateBody "pthread_mutex_destroy"⟩),
   ("pthread_rwlock_rdlock", ⟨.c false, 1, false, delegateBody "pthread_rwlock_rdlock"⟩),
   ("pthread_rwlock_tryrdlock", ⟨.c false, 1, false, delegateBody "pthread_rwlock_tryrdlock"⟩),
   ("pthread_rwlock_wrlock", ⟨.c false, 1, false, delegateBody "pthread_rwlock_wrlock"⟩),
   ("pthread_rwlock_trywrlock", ⟨.c false, 1, false, delegateBody "pthread_rwlock_trywrlock"⟩),
   ("pthread_rwlock_unlock", ⟨.c false, 1, false, delegateBody "pthread_rwlock_unlock"⟩),
   ("pthread_rwlock_destroy", ⟨.c false, 1, false, delegateBody "pthread_rwlock_destroy"⟩),
   ("pthread_condattr_init", ⟨.c false, 1, false, delegateBody "pthread_condattr_init"⟩),
   ("pthread_condattr_destroy", ⟨.c false, 1, false, delegateBody "pthread_condattr_destroy"⟩),
   ("pthread_cond_init", ⟨.c false, 2, false, delegateBody "pthread_cond_init"⟩),
   ("pthread_cond_signal", ⟨.c false, 1, false, delegateBody "pthread_cond_signal"⟩),
   ("pthread_cond_broadcast", ⟨.c false, 1, false, delegateBody "pthread_cond_broadcast"⟩),
   ("pthread_cond_wait", ⟨.c false, 2, false, delegateBody "pthread_cond_wait"⟩),
   ("pthread_cond_timedwait", ⟨.c false, 3, false, delegateBody "pthread_cond_timedwait"⟩),
   ("pthread_cond_destroy", ⟨.c false, 1, false, delegateBody "pthread_cond_destroy"⟩),
   ("pthread_create", ⟨.c false, 4, false, delegateBody "pthread_create"⟩),
   ("pthread_join", ⟨.c false, 2, false, delegateBody "pthread_join"⟩),
   ("pthread_detach", ⟨.c false, 1, false, delegateBody "pthread_detach"⟩),
   ("pthread_self", ⟨.c false, 0, false, delegateBody "pthread_self"⟩),
   ("sched_yield", ⟨.c false, 0, false, delegateBody "sched_yield"⟩),
   ("nanosleep", ⟨.c false, 2, false, delegateBody "nanosleep"⟩),
   ("isatty", ⟨.c false, 1, false, fun _ dest s => isatty_body dest s⟩),
   ("pthread_atfork", ⟨.c false, 3, false, writeIntBody 0⟩),
   ("strerror_r", ⟨.c false, 3, false, delegateBody "strerror_r"⟩),
   ("__xpg_strerror_r", ⟨.c false, 3, false, delegateBody "strerror_r"⟩),
   ("pthread_attr_getguardsize", ⟨.c false, 2, true, fun as dest s =>
     match as with
     | [_attr, guard_size] =>
       (write_scalar PAGE_SIZE guard_size s).bind fun _ s1 =>
         write_scalar 0 dest s1
     | _ => .err (.fatal "unreachable: checked argument count") s⟩),
   ("pthread_attr_init", ⟨.c false, 1, true, writeIntBody 0⟩),
   ("pthread_attr_destroy", ⟨.c false, 1, true, writeIntBody 0⟩),
   ("pthread_attr_setstacksize", ⟨.c false, 2, true, writeIntBody 0⟩),
   ("signal", ⟨.c false, 2, true, writeIntBody 0⟩),
   ("sigaltstack", ⟨.c false, 2, true, writeIntBody 0⟩),
   ("sigaction", ⟨.c false, 3, true, writeIntBody 0⟩),
   ("mprotect", ⟨.c false, 3, true, writeIntBody 0⟩)]

/-- `emulate_foreign_item_by_name` (posix/foreign_items.rs lines
19-488): the variadic `open`/`open64`/`fcntl` arms validate the ABI and
delegate (the delegated shim checks the argument count itself, based on
the first argument); every other known arm validates ABI and arity via
`check_shim` and runs its body; arms guarded by `frame_in_std`, and
unknown names, fall through to the target-specific (linux/macos)
dispatcher outside this excerpt. -/
def emulate_foreign_item_by_name (name : String) (abi : Abi)
    (args : List Nat) (in_std : Bool) (dest : Nat) (s : MachineState) :
    Res DispatchOutcome :=
  if name = "open" ∨ name = "open64" then
    (check_abi_only abi (.c false) s).bind fun _ s1 =>
      (delegate "open" args s1).bind fun _ s2 =>
        .ok (.result .needsJumping) s2
  else if name = "fcntl" then
    (check_abi_only abi (.c false) s).bind fun _ s1 =>
      (delegate "fcntl" args s1).bind fun _ s2 =>
        .ok (.result .needsJumping) s2
  else
    match shims.find? (fun e => e.1 = name) with
    | some e =>
      if e.2.in_std_only && !in_std then .ok .platformSpecific s
      else fixedArm e.2.abi e.2.arity abi args (fun as => e.2.body as dest) s
    | none => .ok .platformSpecific s

/-- The declared signature (ABI, arity) of each fixed-arity POSIX shim
reachable for a given `frame_in_std` flag. -/
def shimSig (name : String) (in_std : Bool) : Option (Abi × Nat) :=
  match shims.find? (fun e => e.1 = name) with
  | some e =>
    if e.2.in_std_only && !in_std then none else some (e.2.abi, e.2.arity)
  | none => none

end Posix

/-- `GetSystemInfo` arm body (windows/foreign_items.rs lines 113-126):
zero the SYSTEM_INFO block, then set its processor-count field. -/
def get_system_info_body (system_info : Nat) (s : MachineState) : Res Unit :=
  .ok ()
    { s with
      effects := .writeCpus system_info :: .zeroInit system_info :: s.effects }

/-- Critical-section arms body (windows/foreign_items.rs lines
341-358): `assert_eq!(total_thread_count, 1)` — a fatal interpreter
abort unless exactly one guest thread exists — then nothing. -/
def critical_section_body (s : MachineState) : Res Unit :=
  if s.thread_count = 1 then .ok () s
  else .err (.fatal "concurrency on Windows is not supported") s

/-- `TryEnterCriticalSection` arm body (windows/foreign_items.rs lines
359-370): the same single-thread assertion, then the answer `TRUE`. -/
def try_enter_critical_section_body (dest : Nat) (s : MachineState) :
    Res Unit :=
  if s.thread_count = 1 then write_scalar 1 dest s
  else .err (.fatal "concurrency on Windows is not supported") s

/-- `BCryptGenRandom` arm body (windows/foreign_items.rs lines
240-260): only the `BCRYPT_USE_SYSTEM_PREFERRED_RNG` flag (`2`) with a
null algorithm handle is supported; then fill the buffer with random
bytes and answer `STATUS_SUCCESS` (`0`). -/
def bcrypt_gen_random_body (algorithm ptr len flags : Nat) (dest : Nat)
    (s : MachineState) : Res Unit :=
  if flags ≠ 2 then
    .err (.unsupported
      "BCryptGenRandom is supported only with the BCRYPT_USE_SYSTEM_PREFERRED_RNG flag") s
  else if algorithm ≠ 0 then
    .err (.unsupported
      "BCryptGenRandom algorithm must be NULL when the flag is BCRYPT_USE_SYSTEM_PREFERRED_RNG") s
  else
    write_scalar 0 dest { s with effects := .genRandom ptr len :: s.effects }

namespace Windows

/-- The arms of the Windows dispatcher (windows/foreign_items.rs), in
source order: each arm's declared ABI (always
`System { unwind: false }`), arity, `frame_in_std` guard, and body.
The `CreateThread` body always stops with an unsupported-feature error,
so the source's `AlreadyJumped` answer after it is unreachable. -/
def shims : List (String × ShimDecl) :=
  [("GetEnvironmentVariableW", ⟨.system false, 3, false, delegateBody "GetEnvironmentVariableW"⟩),
   ("SetEnvironmentVariableW", ⟨.system false, 2, false, delegateBody "SetEnvironmentVariableW"⟩),
   ("GetEnvironmentStringsW", ⟨.system false, 0, false, delegateBody "GetEnvironmentStringsW"⟩),
   ("FreeEnvironmentStringsW", ⟨.system false, 1, false, delegateBody "FreeEnvironmentStringsW"⟩),
   ("GetCurrentDirectoryW", ⟨.system false, 2, false, delegateBody "GetCurrentDirectoryW"⟩),
   ("SetCurrentDirectoryW", ⟨.system false, 1, false, delegateBody "SetCurrentDirectoryW"⟩),
   ("HeapAlloc", ⟨.system false, 3, false, delegateBody "malloc"⟩),
   ("HeapFree", ⟨.system false, 3, false, fun as dest s =>
     (delegate "free" as s).bind fun _ s1 => write_scalar 1 dest s1⟩),
   ("HeapReAlloc", ⟨.system false, 4, false, delegateBody "realloc"⟩),
   ("SetLastError", ⟨.system false, 1, false, fun as _ s =>
     match as with
     | [error] => set_last_error (Int.ofNat error) s
     | _ => .err (.fatal "unreachable: checked argument count") s⟩),
   ("GetLastError", ⟨.system false, 0, false, fun _ dest s =>
     write_scalar s.last_error dest s⟩),
   ("GetSystemInfo", ⟨.system false, 1, false, fun as _ s =>
     match as with
     | [system_info] => get_system_info_body system_info s
     | _ => .err (.fatal "unreachable: checked argument count") s⟩),
   ("TlsAlloc", ⟨.system false, 0, false, delegateBody "create_tls_key"⟩),
   ("TlsGetValue", ⟨.system false, 1, false, delegateBody "load_tls"⟩),
   ("TlsSetValue", ⟨.system false, 2, false, fun as dest s =>
     (delegate "store_tls" as s).bind fun _ s1 => write_scalar 1 dest s1⟩),
   ("GetCommandLineW", ⟨.system false, 0, false, delegateBody "GetCommandLineW"⟩),
   ("GetSystemTimeAsFileTime", ⟨.system false, 1, false, delegateBody "GetSystemTimeAsFileTime"⟩),
   ("QueryPerformanceCounter", ⟨.system false, 1, false, delegateBody "QueryPerformanceCounter"⟩),
   ("QueryPerformanceFrequency", ⟨.system false, 1, false, delegateBody "QueryPerformanceFrequency"⟩),
   ("AcquireSRWLockExclusive", ⟨.system false, 1, false, delegateBody "AcquireSRWLockExclusive"⟩),
   ("ReleaseSRWLockExclusive", ⟨.system false, 1, false, delegateBody "ReleaseSRWLockExclusive"⟩),
   ("TryAcquireSRWLockExclusive", ⟨.system false, 1, false, delegateBody "TryAcquireSRWLockExclusive"⟩),
   ("AcquireSRWLockShared", ⟨.system false, 1, false, delegateBody "AcquireSRWLockShared"⟩),
   ("ReleaseSRWLockShared", ⟨.system false, 1, false, delegateBody "ReleaseSRWLockShared"⟩),
   ("TryAcquireSRWLockShared", ⟨.system false, 1, false, delegateBody "TryAcquireSRWLockShared"⟩),
   ("GetProcAddress", ⟨.system false, 2, false, fun as dest s =>
     match as with
     | [_hModule, lpProcName] => dlsym_body lpProcName dest s
     | _ => .err (.fatal "unreachable: checked argument count") s⟩),
   ("SystemFunction036", ⟨.system false, 2, false, fun as dest s =>
     match as with
     | [ptr, len] =>
       write_scalar 1 dest { s with effects := .genRandom ptr len :: s.effects }
     | _ => .err (.fatal "unreachable: checked argument count") s⟩),
   ("BCryptGenRandom", ⟨.system false, 4, false, fun as dest s =>
     match as with
     | [algorithm, ptr, len, flags] =>
       bcrypt_gen_random_body algorithm ptr len flags dest s
     | _ => .err (.fatal "unreachable: checked argument count") s⟩),
   ("GetConsoleScreenBufferInfo", ⟨.system false, 2, false, writeIntBody 0⟩),
   ("GetConsoleMode", ⟨.system false, 2, false, writeIntBody 0⟩),
   ("SwitchToThread", ⟨.system false, 0, false, writeIntBody 0⟩),
   ("GetStdHandle", ⟨.system false, 1, false, fun as dest s =>
     match as with
     | [which] => write_scalar (Int.ofNat which) dest s
     | _ => .err (.fatal "unreachable: checked argument count") s⟩),
   ("CreateThread", ⟨.system false, 6, false, fun _ _ s =>
     handle_unsupported "creating threads on Windows is not supported" s⟩),
   ("GetProcessHeap", ⟨.system false, 0, true, writeIntBody 1⟩),
   ("GetModuleHandleA", ⟨.system false, 1, true, writeIntBody 1⟩),
   ("SetConsoleTextAttribute", ⟨.system false, 2, true, writeIntBody 0⟩),
   ("AddVectoredExceptionHandler", ⟨.system false, 2, true, writeIntBody 1⟩),
   ("SetThreadStackGuarantee", ⟨.system false, 1, true, writeIntBody 1⟩),
   ("InitializeCriticalSection", ⟨.system false, 1, true, fun _ _ s =>
     critical_section_body s⟩),
   ("EnterCriticalSection", ⟨.system false, 1, true, fun _ _ s =>
     critical_section_body s⟩),
   ("LeaveCriticalSection", ⟨.system false, 1, true, fun _ _ s =>
     critical_section_body s⟩),
   ("DeleteCriticalSection", ⟨.system false, 1, true, fun _ _ s =>
     critical_section_body s⟩),
   ("TryEnterCriticalSection", ⟨.system false, 1, true, fun _ dest s =>
     try_enter_critical_section_body dest s⟩)]

/-- `emulate_foreign_item_by_name` (windows/foreign_items.rs lines
14-376): every known arm validates ABI and arity via `check_shim` and
runs its body; arms guarded by `frame_in_std`, and unknown names,
answer `NotSupported`. -/
def emulate_foreign_item_by_name (name : String) (abi : Abi)
    (args : List Nat) (in_std : Bool) (dest : Nat) (s : MachineState) :
    Res DispatchOutcome :=
  match shims.find? (fun e => e.1 = name) with
  | some e =>
    if e.2.in_std_only && !in_std then .ok (.result .notSupported) s
    else fixedArm e.2.abi e.2.arity abi args (fun as => e.2.body as dest) s
  | none => .ok (.result .notSupported) s

/-- The declared signature (ABI, arity) of each Windows shim reachable
for a given `frame_in_std` flag. -/
def shimSig (name : String) (in_std : Bool) : Option (Abi × Nat) :=
  match shims.find? (fun e => e.1 = name) with
  | some e =>
    if e.2.in_std_only && !in_std then none else some (e.2.abi, e.2.arity)
  | none => none

end Windows

theorem fixedArm_mismatch (exp_abi : Abi) (arity : Nat) (abi : Abi)
    (args : List Nat) (body : List Nat → MachineState → Res Unit)
    (s : MachineState) (h : ¬(abi = exp_abi ∧ args.length = arity)) :
    fixedArm exp_abi arity abi args body s =
      .err (.ub "ABI or argument count mismatch in shim call") s := by
  simp only [fixedArm, check_shim, if_neg h, Res.bind]

/-- C7: for every fixed-arity platform API name emulated by the
foreign-symbol dispatchers, an argument sequence whose count or ABI
does not match the declared signature makes the call fail as a usage
error with the machine state untouched (no destination write, no
effect); the variadic `open`/`open64`/`fcntl` arms likewise reject a
wrong ABI before any side effect (their count is validated inside the
delegated shim, based on the first argument). -/
theorem claim_C7_signature_mismatch :
    ∀ (name : String) (in_std : Bool) (a0 : Abi) (n : Nat) (abi : Abi)
      (args : List Nat) (dest : Nat) (s : MachineState),
      ¬(abi = a0 ∧ args.length = n) →
      (Posix.shimSig name in_std = some (a0, n) →
        Posix.emulate_foreign_item_by_name name abi args in_std dest s =
          .err (.ub "ABI or argument count mismatch in shim call") s) ∧
      (Windows.shimSig name in_std = some (a0, n) →
        Windows.emulate_foreign_item_by_name name abi args in_std dest s =
          .err (.ub "ABI or argument count mismatch in shim call") s) ∧
      (abi ≠ .c false →
        (name = "open" ∨ name = "open64" ∨ name = "fcntl") →
        Posix.emulate_foreign_item_by_name name abi args in_std dest s =
          .err (.ub "ABI mismatch in shim call") s) := by
  intro name in_std a0 n abi args dest s hmis
  refine ⟨?_, ?_, ?_⟩
  · intro hsig
    unfold Posix.shimSig at hsig
    cases hfind : Posix.shims.find? (fun e => e.1 = name) with
    | none =>
      rw [hfind] at hsig
      exact Option.noConfusion hsig
    | some e =>
      rw [hfind] at hsig
      have hsig2 : (if (e.2.in_std_only && !in_std) = true then none
          else some (e.2.abi, e.2.arity)) = some (a0, n) := hsig
      by_cases hg : (e.2.in_std_only && !in_std) = true
      · rw [if_pos hg] at hsig2
        exact Option.noConfusion hsig2
      · rw [if_neg hg] at hsig2
        have ha := Option.some.inj hsig2
        by_cases ho : name = "open" ∨ name = "open64"
        · exfalso
          rcases ho with h | h
          · subst h
            rw [show Posix.shims.find? (fun e => e.1 = "open") = none
              from rfl] at hfind
            exact Option.noConfusion hfind
          · subst h
            rw [show Posix.shims.find? (fun e => e.1 = "open64") = none
              from rfl] at hfind
            exact Option.noConfusion hfind
        · by_cases hf : name = "fcntl"
          · exfalso
            subst hf
            rw [show Posix.shims.find? (fun e => e.1 = "fcntl") = none
              from rfl] at hfind
            exact Option.noConfusion hfind
          · have hdisp : Posix.emulate_foreign_item_by_name name abi args
                in_std dest s =
                fixedArm e.2.abi e.2.arity abi args
                  (fun as => e.2.body as dest) s := by
              unfold Posix.emulate_foreign_item_by_name
              rw [if_neg ho, if_neg hf, hfind]
              exact if_neg hg
            rw [hdisp]
            exact fixedArm_mismatch e.2.abi e.2.arity abi args _ s
              (by rw [show e.2.abi = a0 from congrArg Prod.fst ha,
                      show e.2.arity = n from congrArg Prod.snd ha]
                  exact hmis)
  · intro hsig
    unfold Windows.shimSig at hsig
    cases hfind : Windows.shims.find? (fun e => e.1 = name) with
    | none =>
      rw [hfind] at hsig
      exact Option.noConfusion hsig
    | some e =>
      rw [hfind] at hsig
      have hsig2 : (if (e.2.in_std_only && !in_std) = true then none
          else some (e.2.abi, e.2.arity)) = some (a0, n) := hsig
      by_cases hg : (e.2.in_std_only && !in_std) = true
      · rw [if_pos hg] at hsig2
        exact Option.noConfusion hsig2
      · rw [if_neg hg] at hsig2
        have ha := Option.some.inj hsig2
        have hdisp : Windows.emulate_foreign_item_by_name name abi args
            in_std dest s =
            fixedArm e.2.abi e.2.arity abi args
              (fun as => e.2.body as dest) s := by
          unfold Windows.emulate_foreign_item_by_name
          rw [hfind]
          exact if_neg hg
        rw [hdisp]
        exact fixedArm_mismatch e.2.abi e.2.arity abi args _ s
          (by rw [show e.2.abi = a0 from congrArg Prod.fst ha,
                  show e.2.arity = n from congrArg Prod.snd ha]
              exact hmis)
  · intro habi ho
    unfold Posix.emulate_foreign_item_by_name
    rcases ho with h | h | h
    · subst h
      rw [if_pos (Or.inl rfl)]
      simp only [check_abi_only, if_neg habi, Res.bind]
    · subst h
      rw [if_pos (Or.inr rfl)]
      simp only [check_abi_only, if_neg habi, Res.bind]
    · subst h
      rw [if_neg (by simp), if_pos rfl]
      simp only [check_abi_only, if_neg habi, Res.bind]

/-- Witness for C7: calling `getenv` (declared arity 1) with two
arguments fails as a usage error with the state untouched. -/
theorem claim_C7_signature_mismatch_witness :
    Posix.emulate_foreign_item_by_name "getenv" (.c false) [1, 2]
        false 5 initState =
      .err (.ub "ABI or argument count mismatch in shim call") initState :=
  (claim_C7_signature_mismatch "getenv" false (.c false) 1 (.c false)
    [1, 2] 5 initState (by decide)).1 rfl

/-- C8: a `sysconf` call with a name outside the recognized set
(`_SC_PAGESIZE`, `_SC_NPROCESSORS_CONF`, `_SC_NPROCESSORS_ONLN`), and a
`BCryptGenRandom` call whose flags are not exactly
`BCRYPT_USE_SYSTEM_PREFERRED_RNG` (`2`), stop with an `unsupported`
error — a diagnostic kind distinct from undefined behaviour — and the
machine state is untouched: no platform error code is ever written back
to the guest. -/
theorem claim_C8_unsupported_not_error_code :
    ∀ (n : Nat) (in_std : Bool) (dest : Nat) (s : MachineState),
      (Int.ofNat n ≠ eval_libc_i32 "_SC_PAGESIZE" →
       Int.ofNat n ≠ eval_libc_i32 "_SC_NPROCESSORS_CONF" →
       Int.ofNat n ≠ eval_libc_i32 "_SC_NPROCESSORS_ONLN" →
        Posix.emulate_foreign_item_by_name "sysconf" (.c false) [n]
            in_std dest s =
          .err (.unsupported "unimplemented sysconf name") s) ∧
      (∀ (algorithm ptr len flags : Nat), flags ≠ 2 →
        Windows.emulate_foreign_item_by_name "BCryptGenRandom"
            (.system false) [algorithm, ptr, len, flags] in_std dest s =
          .err (.unsupported
            "BCryptGenRandom is supported only with the BCRYPT_USE_SYSTEM_PREFERRED_RNG flag") s) := by
  intro n in_std dest s
  constructor
  · intro h1 h2 h3
    have hred : Posix.emulate_foreign_item_by_name "sysconf" (.c false) [n]
        in_std dest s =
        (sysconf_body (Int.ofNat n) dest s).bind fun _ s2 =>
          .ok (.result .needsJumping) s2 := rfl
    rw [hred]
    have e1 : (30 : Int) ≠ (n : Int) := fun he => h1 he.symm
    have e2 : (83 : Int) ≠ (n : Int) := fun he => h2 he.symm
    have e3 : (84 : Int) ≠ (n : Int) := fun he => h3 he.symm
    simp [sysconf_body, List.find?, Res.bind, eval_libc_i32, e1, e2, e3]
  · intro algorithm ptr len flags hf
    have hred : Windows.emulate_foreign_item_by_name "BCryptGenRandom"
        (.system false) [algorithm, ptr, len, flags] in_std dest s =
        (bcrypt_gen_random_body algorithm ptr len flags dest s).bind
          fun _ s2 => .ok (.result .needsJumping) s2 := rfl
    rw [hred]
    unfold bcrypt_gen_random_body
    rw [if_pos hf]
    rfl

/-- Witness for C8: `sysconf(99)` is unsupported, as is
`BCryptGenRandom` with flags `3`. -/
theorem claim_C8_unsupported_not_error_code_witness :
    Posix.emulate_foreign_item_by_name "sysconf" (.c false) [99]
        false 5 initState =
      .err (.unsupported "unimplemented sysconf name") initState ∧
    Windows.emulate_foreign_item_by_name "BCryptGenRandom" (.system false)
        [0, 1, 8, 3] false 5 initState =
      .err (.unsupported
        "BCryptGenRandom is supported only with the BCRYPT_USE_SYSTEM_PREFERRED_RNG flag") initState :=
  ⟨(claim_C8_unsupported_not_error_code 99 false 5 initState).1
      (by decide) (by decide) (by decide),
   (claim_C8_unsupported_not_error_code 99 false 5 initState).2
      0 1 8 3 (by decide)⟩

/-- C9: a dynamic-symbol lookup (`dlsym` on POSIX, `GetProcAddress` on
Windows) whose requested symbol name is not in the known-symbol
catalogue writes a null pointer into the destination through the normal
return-value channel and succeeds — the guest can branch on the
result. -/
theorem claim_C9_unknown_symbol_is_null :
    ∀ (handle symptr : Nat) (nm : String) (in_std : Bool) (dest : Nat)
      (s : MachineState),
      s.cstrs.find? (fun e => e.1 = symptr) = some (symptr, nm) →
      nm ∉ s.dlsym_catalogue →
      (Posix.emulate_foreign_item_by_name "dlsym" (.c false)
          [handle, symptr] in_std dest s =
        .ok (.result .needsJumping) { s with mem := (dest, 0) :: s.mem }) ∧
      (Windows.emulate_foreign_item_by_name "GetProcAddress" (.system false)
          [handle, symptr] in_std dest s =
        .ok (.result .needsJumping) { s with mem := (dest, 0) :: s.mem }) := by
  intro handle symptr nm in_std dest s hstr hcat
  have hbody : dlsym_body symptr dest s = write_scalar 0 dest s := by
    unfold dlsym_body read_c_str
    rw [hstr]
    simp only [Res.bind, Dlsym.from_str, if_neg hcat]
  constructor
  · have hred : Posix.emulate_foreign_item_by_name "dlsym" (.c false)
        [handle, symptr] in_std dest s =
        (dlsym_body symptr dest s).bind fun _ s2 =>
          .ok (.result .needsJumping) s2 := rfl
    rw [hred, hbody]
    rfl
  · have hred : Windows.emulate_foreign_item_by_name "GetProcAddress"
        (.system false) [handle, symptr] in_std dest s =
        (dlsym_body symptr dest s).bind fun _ s2 =>
          .ok (.result .needsJumping) s2 := rfl
    rw [hred, hbody]
    rfl

/-- Witness for C9: looking up an uncatalogued symbol name yields a
null result through the normal channel. -/
theorem claim_C9_unknown_symbol_is_null_witness :
    Posix.emulate_foreign_item_by_name "dlsym" (.c false) [0, 9] false 5
        ({ initState with cstrs := [(9, "no_such_symbol")] }) =
      .ok (.result .needsJumping)
        ({ initState with cstrs := [(9, "no_such_symbol")],
                          mem := [(5, 0)] }) :=
  (claim_C9_unknown_symbol_is_null 0 9 "no_such_symbol" false 5
    ({ initState with cstrs := [(9, "no_such_symbol")] })
    (by decide) (by decide)).1

/-- C10: on Windows, every `CreateThread` call stops with an
unsupported-feature report and no thread is created (the state is
untouched); the critical-section shims abort the interpreter (a fatal
assertion failure) unless exactly one guest thread exists, and
`TryEnterCriticalSection` then always answers `TRUE` (`1`). -/
theorem claim_C10_windows_thread_shims :
    ∀ (a b c d e f : Nat) (in_std : Bool) (dest : Nat) (s : MachineState),
      (Windows.emulate_foreign_item_by_name "CreateThread" (.system false)
          [a, b, c, d, e, f] in_std dest s =
        .err (.unsupported "creating threads on Windows is not supported") s) ∧
      (∀ ptr, ∀ name ∈ (["InitializeCriticalSection", "EnterCriticalSection",
          "LeaveCriticalSection", "DeleteCriticalSection"] : List String),
        (s.thread_count ≠ 1 →
          Windows.emulate_foreign_item_by_name name (.system false) [ptr]
              true dest s =
            .err (.fatal "concurrency on Windows is not supported") s) ∧
        (s.thread_count = 1 →
          Windows.emulate_foreign_item_by_name name (.system false) [ptr]
              true dest s =
            .ok (.result .needsJumping) s)) ∧
      (∀ ptr,
        (s.thread_count ≠ 1 →
          Windows.emulate_foreign_item_by_name "TryEnterCriticalSection"
              (.system false) [ptr] true dest s =
            .err (.fatal "concurrency on Windows is not supported") s) ∧
        (s.thread_count = 1 →
          Windows.emulate_foreign_item_by_name "TryEnterCriticalSection"
              (.system false) [ptr] true dest s =
            .ok (.result .needsJumping) { s with mem := (dest, 1) :: s.mem })) := by
  intro a b c d e f in_std dest s
  refine ⟨rfl, ?_, ?_⟩
  · intro ptr name hname
    have hcrit : ∀ (hred : Windows.emulate_foreign_item_by_name name
          (.system false) [ptr] true dest s =
          (critical_section_body s).bind fun _ s2 =>
            .ok (.result .needsJumping) s2),
        (s.thread_count ≠ 1 →
          Windows.emulate_foreign_item_by_name name (.system false) [ptr]
              true dest s =
            .err (.fatal "concurrency on Windows is not supported") s) ∧
        (s.thread_count = 1 →
          Windows.emulate_foreign_item_by_name name (.system false) [ptr]
              true dest s = .ok (.result .needsJumping) s) := by
      intro hred
      constructor
      · intro h1
        rw [hred]
        unfold critical_section_body
        rw [if_neg h1]
        rfl
      · intro h1
        rw [hred]
        unfold critical_section_body
        rw [if_pos h1]
        rfl
    fin_cases hname <;> exact hcrit rfl
  · intro ptr
    constructor
    · intro h1
      have hred : Windows.emulate_foreign_item_by_name
          "TryEnterCriticalSection" (.system false) [ptr] true dest s =
          (try_enter_critical_section_body dest s).bind fun _ s2 =>
            .ok (.result .needsJumping) s2 := rfl
      rw [hred]
      unfold try_enter_critical_section_body
      rw [if_neg h1]
      rfl
    · intro h1
      have hred : Windows.emulate_foreign_item_by_name
          "TryEnterCriticalSection" (.system false) [ptr] true dest s =
          (try_enter_critical_section_body dest s).bind fun _ s2 =>
            .ok (.result .needsJumping) s2 := rfl
      rw [hred]
      unfold try_enter_critical_section_body
      rw [if_pos h1]
      rfl

/-- Witness for C10: with two guest threads, `EnterCriticalSection`
aborts with a fatal assertion failure. -/
theorem claim_C10_windows_thread_shims_witness :
    Windows.emulate_foreign_item_by_name "EnterCriticalSection"
        (.system false) [3] true 5
        ({ initState with thread_count := 2 }) =
      .err (.fatal "concurrency on Windows is not supported")
        ({ initState with thread_count := 2 }) :=
  ((claim_C10_windows_thread_shims 0 0 0 0 0 0 true 5
    ({ initState with thread_count := 2 })).2.1 3
    "EnterCriticalSection" (by simp)).1 (by decide)
